import Mathlib

/-
Verification model of the wake-event primitive (src/system/WakeEvent.cpp) and
of the NuttX WiFi commissioning driver
(src/platform/Linux/NetworkCommissioningWiFiDriverNuttx.cpp).

The wake-event code is modelled at two levels:
  * a deterministic kernel-state semantics (SignalState), in which the pipe or
    FIFO buffer and the eventfd counter are a pending count and the read/write
    system calls are total functions on that state; and
  * a control-flow/trace semantics, in which the outcome of each system call is
    injected through an environment record and the model returns the CHIP error
    code, the (unchanged) handle and the list of system calls performed.
Both levels are translated directly from the source; the source file is the
authority for the branch structure, the errno tests and the order of calls.
-/

namespace Chip

/-- POSIX error numbers distinguished by the source: the source only ever tests
for EAGAIN and EWOULDBLOCK; other codes are carried opaquely into
CHIP_ERROR_POSIX. -/
inductive Errno where
  | EAGAIN
  | EWOULDBLOCK
  | EPIPE
  | EINTR
  | ENOENT
  | EBADF
deriving DecidableEq

/-- The test `errno == EAGAIN || errno == EWOULDBLOCK` that appears in
Confirm and Notify. -/
def Errno.isWouldBlock : Errno → Bool
  | .EAGAIN => true
  | .EWOULDBLOCK => true
  | _ => false

/-- CHIP error codes as used by the modelled functions: CHIP_NO_ERROR,
CHIP_ERROR_POSIX(errno), and opaque codes returned by the persisted-storage
collaborator. -/
inductive CHIP_ERROR where
  | noError
  | posix (e : Errno)
  | storage (code : Nat)
deriving DecidableEq

/-- The four compile-time-selected backends of WakeEvent.cpp:
CHIP_SYSTEM_CONFIG_USE_POSIX_PIPE without/with
CHIP_SYSTEM_CONFIG_WAKE_EVENT_USE_FIFO, and the eventfd build without/with
CHIP_SYSTEM_CONFIG_USE_ZEPHYR_EVENTFD. -/
inductive Backend where
  | pipe
  | fifo
  | eventfd
  | zephyrEventfd
deriving DecidableEq

def Backend.isEventFd : Backend → Bool
  | .eventfd => true
  | .zephyrEventfd => true
  | _ => false

/-- Largest value an eventfd counter may hold (0xfffffffffffffffe): a write
that would push the counter past this value does not complete. -/
def eventfdMaxCounter : Nat := 2 ^ 64 - 2

/-- Kernel-side signal state of the wake channel: the number of unread bytes
in the pipe or FIFO buffer, or the value of the eventfd counter. -/
structure SignalState where
  pending : Nat
deriving DecidableEq

/-- State of the channel right after a successful Open: a fresh pipe or FIFO
is empty, and `eventfd(0, 0)` creates the counter at 0. -/
def openSignalState : SignalState := ⟨0⟩

/-- How much signal data the channel can hold before a write no longer
completes: the pipe or FIFO buffer capacity (a kernel parameter, passed in),
or the maximum eventfd counter value. -/
def effLimit (b : Backend) (cap : Nat) : Nat :=
  if b.isEventFd then eventfdMaxCounter else cap

/-- Immediate outcome of a read or write system call: a non-negative return
value, a -1 return with the given errno, or no immediate return at all
(the calling thread blocks). -/
inductive SysOut where
  | ok (n : Nat)
  | err (e : Errno)
  | blocked
deriving DecidableEq

/-- The write performed by Notify: one byte for the pipe and FIFO backends,
an 8-byte value of 1 for the eventfd backends (which adds 1 to the counter).
If the channel is full, a non-blocking descriptor yields EAGAIN and a
blocking one blocks. -/
def writeSys (nonblock : Bool) (b : Backend) (cap : Nat) (s : SignalState) :
    SysOut × SignalState :=
  if s.pending < effLimit b cap then
    (SysOut.ok (if b.isEventFd then 8 else 1), ⟨s.pending + 1⟩)
  else if nonblock then (SysOut.err Errno.EAGAIN, s)
  else (SysOut.blocked, s)

/-- The read performed by Confirm. For the pipe and FIFO backends a read into
a buffer of `bufLen` bytes removes `min bufLen pending` bytes and returns that
count. For the eventfd backends a single 8-byte read fetches the counter
value (returned here in the `ok` payload) and atomically resets it to 0.
An empty channel yields EAGAIN on a non-blocking descriptor and blocks on a
blocking one. -/
def readSys (nonblock : Bool) (bufLen : Nat) (b : Backend) (s : SignalState) :
    SysOut × SignalState :=
  if b.isEventFd then
    if s.pending = 0 then
      ((if nonblock then SysOut.err Errno.EAGAIN else SysOut.blocked), s)
    else (SysOut.ok s.pending, ⟨0⟩)
  else
    if s.pending = 0 then
      ((if nonblock then SysOut.err Errno.EAGAIN else SysOut.blocked), s)
    else (SysOut.ok (min bufLen s.pending), ⟨s.pending - min bufLen s.pending⟩)

/-- A level-triggered zero-timeout readiness check: the descriptor is
reported readable exactly while unread signal data exists. -/
def readable (s : SignalState) : Bool := s.pending != 0

/-- Outcome of Notify under the kernel semantics: the call returns with a
CHIP error code and a new channel state, or the calling thread blocks. -/
inductive NotifyRes where
  | ret (e : CHIP_ERROR) (s : SignalState)
  | blocked (s : SignalState)
deriving DecidableEq

/-- The channel state carried by a Notify outcome. -/
def NotifyRes.state : NotifyRes → SignalState
  | .ret _ s => s
  | .blocked s => s

/-- WakeEvent::Notify under the kernel semantics. The pipe write descriptor
is made non-blocking in Open (SetNonBlockingMode), the FIFO writer is opened
with O_WRONLY | O_NONBLOCK, and the eventfd is created with `eventfd(0, 0)`,
so it is blocking. A failed write whose errno is EAGAIN or EWOULDBLOCK is
swallowed. In the FIFO build any other write failure reopens a writer on the
well-known path (without O_NONBLOCK; the open returns because the handle
itself keeps a reader attached via its read descriptor) and retries the
one-byte write once on that blocking descriptor. -/
def notifyKernel (b : Backend) (cap : Nat) (s : SignalState) : NotifyRes :=
  match writeSys (!b.isEventFd) b cap s with
  | (SysOut.ok _, s1) => NotifyRes.ret CHIP_ERROR.noError s1
  | (SysOut.err e, s1) =>
    if e.isWouldBlock then NotifyRes.ret CHIP_ERROR.noError s1
    else if b = Backend.fifo then
      match writeSys false Backend.fifo cap s1 with
      | (SysOut.ok _, s2) => NotifyRes.ret CHIP_ERROR.noError s2
      | (SysOut.err e2, s2) => NotifyRes.ret (CHIP_ERROR.posix e2) s2
      | (SysOut.blocked, s2) => NotifyRes.blocked s2
    else NotifyRes.ret (CHIP_ERROR.posix e) s1
  | (SysOut.blocked, s1) => NotifyRes.blocked s1

/-- `n` consecutive Notify calls, following the channel state (a blocked call
leaves the state unchanged). -/
def notifyIterState (b : Backend) (cap : Nat) : Nat → SignalState → SignalState
  | 0, s => s
  | n + 1, s => notifyIterState b cap n (notifyKernel b cap s).state

/-- Outcome of Confirm under the kernel semantics: Confirm returns no value,
so the outcome is only the new channel state, or the thread blocking. -/
inductive ConfirmRes where
  | done (s : SignalState)
  | blocked (s : SignalState)
deriving DecidableEq

/-- The read loop of the pipe/FIFO WakeEvent::Confirm: read into a 128-byte
buffer on the non-blocking read descriptor, and repeat exactly while the read
returned the full buffer size. A -1 return exits the loop whether or not the
errno is EAGAIN (a non-would-block errno is additionally logged). -/
def confirmPipeLoop (s : SignalState) : SignalState :=
  if h : (readSys true 128 Backend.pipe s).1 = SysOut.ok 128 then
    confirmPipeLoop (readSys true 128 Backend.pipe s).2
  else (readSys true 128 Backend.pipe s).2
termination_by s.pending
decreasing_by
  by_cases hz : s.pending = 0
  · simp [readSys, Backend.isEventFd, hz] at h
  · simp only [readSys, Backend.isEventFd, if_false, hz, if_neg hz] at h ⊢
    simp only [Bool.false_eq_true, if_false] at h ⊢
    have : min 128 s.pending = 128 := by
      by_contra hm
      simp [hm] at h
    omega

/-- WakeEvent::Confirm under the kernel semantics: the read loop for the
pipe and FIFO builds, and a single read on the blocking eventfd descriptor
for the eventfd builds (an error return is logged and the call returns). -/
def confirmKernel (b : Backend) (s : SignalState) : ConfirmRes :=
  if b.isEventFd then
    match readSys false 8 b s with
    | (SysOut.ok _, s1) => ConfirmRes.done s1
    | (SysOut.err _, s1) => ConfirmRes.done s1
    | (SysOut.blocked, s1) => ConfirmRes.blocked s1
  else ConfirmRes.done (confirmPipeLoop s)

/- Control-flow/trace semantics: system-call outcomes are injected through an
environment and the model records which calls were made. -/

/-- The WakeEvent handle fields of the POSIX-pipe/FIFO build: read and write
descriptors and the watch token registered with the system layer. -/
structure WakeHandleP where
  mReadFD : Int
  mWriteFD : Int
  mReadWatch : Nat
deriving DecidableEq

/-- The WakeEvent handle fields of the eventfd builds: the single eventfd
descriptor and the watch token. -/
structure WakeHandleE where
  mReadFD : Int
  mReadWatch : Nat
deriving DecidableEq

/-- Injected outcome of a write call. -/
inductive WriteRet where
  | ok
  | fail (e : Errno)
deriving DecidableEq

/-- Injected outcome of the `open(kChipEventFifoPath, O_WRONLY)` call on the
FIFO retry path: the fresh descriptor, or -1 with the given errno. -/
inductive OpenRet where
  | ok (fd : Int)
  | fail (e : Errno)
deriving DecidableEq

/-- Injected outcome of a read call: the byte count returned, or -1 with the
given errno. -/
inductive ReadRet where
  | ok (n : Nat)
  | fail (e : Errno)
deriving DecidableEq

/-- Outcomes of the system calls a single Notify invocation may perform. -/
structure NotifyEnv where
  write1 : WriteRet
  openW : OpenRet
  write2 : WriteRet
deriving DecidableEq

/-- A system call made by the modelled code, as recorded in traces. -/
inductive SysAct where
  | write (fd : Int) (bytes : Nat)
  | openWriter
  | close (fd : Int)
  | read (fd : Int)
  | stopWatch
deriving DecidableEq

/-- What a Notify invocation returns and did: the CHIP error code, the handle
(returned to show it is not written to), and the system calls performed in
order. -/
structure NotifyOut (H : Type) where
  err : CHIP_ERROR
  handle : H
  acts : List SysAct
deriving DecidableEq

/-- WakeEvent::Notify of the POSIX-pipe build (`useFifo = false`) and of the
FIFO build (`useFifo = true`), over injected system-call outcomes. A failed
first write with a would-block errno is swallowed. In the FIFO build any
other failure opens a fresh writer on the well-known path; if the open fails
its errno is returned; otherwise the one-byte write is retried once on the
fresh descriptor, which is then closed, and a failure of the retried write is
returned as its errno. -/
def NotifyCtlP (useFifo : Bool) (h : WakeHandleP) (env : NotifyEnv) :
    NotifyOut WakeHandleP :=
  match env.write1 with
  | WriteRet.ok => ⟨CHIP_ERROR.noError, h, [SysAct.write h.mWriteFD 1]⟩
  | WriteRet.fail e =>
    if e.isWouldBlock then ⟨CHIP_ERROR.noError, h, [SysAct.write h.mWriteFD 1]⟩
    else if useFifo then
      match env.openW with
      | OpenRet.fail e2 =>
        ⟨CHIP_ERROR.posix e2, h, [SysAct.write h.mWriteFD 1, SysAct.openWriter]⟩
      | OpenRet.ok fd =>
        match env.write2 with
        | WriteRet.fail e3 =>
          ⟨CHIP_ERROR.posix e3, h,
            [SysAct.write h.mWriteFD 1, SysAct.openWriter, SysAct.write fd 1,
              SysAct.close fd]⟩
        | WriteRet.ok =>
          ⟨CHIP_ERROR.noError, h,
            [SysAct.write h.mWriteFD 1, SysAct.openWriter, SysAct.write fd 1,
              SysAct.close fd]⟩
    else ⟨CHIP_ERROR.posix e, h, [SysAct.write h.mWriteFD 1]⟩

/-- WakeEvent::Notify of the eventfd builds over injected outcomes: a single
8-byte write on the handle descriptor (the source writes to mReadFD); a
would-block failure is swallowed, any other failure is returned as its
errno. -/
def NotifyCtlE (h : WakeHandleE) (env : NotifyEnv) : NotifyOut WakeHandleE :=
  match env.write1 with
  | WriteRet.ok => ⟨CHIP_ERROR.noError, h, [SysAct.write h.mReadFD 8]⟩
  | WriteRet.fail e =>
    if e.isWouldBlock then ⟨CHIP_ERROR.noError, h, [SysAct.write h.mReadFD 8]⟩
    else ⟨CHIP_ERROR.posix e, h, [SysAct.write h.mReadFD 8]⟩

/-- Reads performed by the pipe/FIFO Confirm loop, driven by the injected
read outcomes (an exhausted list stands for the kernel answering EAGAIN):
one read per iteration, continuing exactly while a read returned the full
128-byte buffer. -/
def confirmReads (fd : Int) : List ReadRet → List SysAct
  | [] => [SysAct.read fd]
  | r :: rest =>
    SysAct.read fd :: (if r = ReadRet.ok 128 then confirmReads fd rest else [])

/-- WakeEvent::Confirm of the pipe/FIFO build over injected read outcomes:
the method is const and void, so its result is only the unchanged handle and
the trace of reads. -/
def ConfirmCtlP (h : WakeHandleP) (env : List ReadRet) :
    WakeHandleP × List SysAct :=
  (h, confirmReads h.mReadFD env)

/-- WakeEvent::Confirm of the eventfd builds over an injected read outcome:
one read on the handle descriptor; any error return is only logged. -/
def ConfirmCtlE (h : WakeHandleE) (env : ReadRet) : WakeHandleE × List SysAct :=
  (h, [SysAct.read h.mReadFD])

/-- Injected return values of the `::close` calls made by Close. -/
structure CloseEnv where
  closeRead : Int
  closeWrite : Int
deriving DecidableEq

/-- Outcome of Close: the process dies on a VerifyOrDie failure, or Close
completes with the updated handle; both carry the trace of calls made. -/
inductive CloseRes (H : Type) where
  | died (acts : List SysAct)
  | done (h : H) (acts : List SysAct)
deriving DecidableEq

/-- The trace of system calls a Close outcome performed. -/
def CloseRes.acts {H : Type} : CloseRes H → List SysAct
  | .died a => a
  | .done _ a => a

/-- WakeEvent::Close of the POSIX-pipe/FIFO build: StopWatchingSocket first,
then `VerifyOrDie(close(mReadFD) == 0)`, then
`VerifyOrDie(close(mWriteFD) == 0)`, then both descriptor fields are set
to -1. -/
def CloseP (h : WakeHandleP) (env : CloseEnv) : CloseRes WakeHandleP :=
  if env.closeRead != 0 then
    CloseRes.died [SysAct.stopWatch, SysAct.close h.mReadFD]
  else if env.closeWrite != 0 then
    CloseRes.died [SysAct.stopWatch, SysAct.close h.mReadFD, SysAct.close h.mWriteFD]
  else
    CloseRes.done ⟨-1, -1, h.mReadWatch⟩
      [SysAct.stopWatch, SysAct.close h.mReadFD, SysAct.close h.mWriteFD]

/-- WakeEvent::Close of the eventfd builds: StopWatchingSocket first, then
`VerifyOrDie(close(mReadFD) == 0)`, then the descriptor field is set
to -1. -/
def CloseE (h : WakeHandleE) (env : CloseEnv) : CloseRes WakeHandleE :=
  if env.closeRead != 0 then
    CloseRes.died [SysAct.stopWatch, SysAct.close h.mReadFD]
  else
    CloseRes.done ⟨-1, h.mReadWatch⟩ [SysAct.stopWatch, SysAct.close h.mReadFD]

/- Model of NetworkCommissioningWiFiDriverNuttx.cpp. -/

/-- Size of the fixed `ssid` array of WiFiNetwork
(DeviceLayer::Internal::kMaxWiFiSSIDLength). -/
def kMaxWiFiSSIDLength : Nat := 32

/-- Size of the fixed `credentials` array of WiFiNetwork
(DeviceLayer::Internal::kMaxWiFiKeyLength). -/
def kMaxWiFiKeyLength : Nat := 64

/-- A stored WiFi network. The fixed byte arrays together with their length
fields are modelled as byte lists; `ssid = []` is the "no network" state the
source encodes as `ssidLen == 0`. -/
structure WiFiNetwork where
  ssid : List Nat
  credentials : List Nat
deriving DecidableEq

/-- NetworkCommissioning::Status values used by the modelled driver. -/
inductive Status where
  | kSuccess
  | kOutOfRange
  | kBoundsExceeded
  | kNetworkIDNotFound
  | kUnknownError
deriving DecidableEq

/-- The NuttxWiFiDriver state: the network committed to persisted storage and
the staging network. -/
structure NuttxWiFiDriver where
  mSavedNetwork : WiFiNetwork
  mStagingNetwork : WiFiNetwork
deriving DecidableEq

/-- NuttxWiFiDriver::NetworkMatch: the id has the stored ssid length and the
first ssidLen bytes agree (memcmp over ssidLen bytes, which on equal-length
lists is list equality). -/
def NetworkMatch (network : WiFiNetwork) (networkId : List Nat) : Bool :=
  networkId.length == network.ssid.length && networkId == network.ssid

/-- NuttxWiFiDriver::AddOrUpdateNetwork. The staged network must be empty or
match the given ssid, else kBoundsExceeded; the credential and ssid sizes
must fit their arrays, else kOutOfRange; on success the staging network is
replaced. (The outDebugText and outNetworkIndex out-parameters, always set
to empty and 0, are omitted.) -/
def AddOrUpdateNetwork (d : NuttxWiFiDriver) (ssid credentials : List Nat) :
    Status × NuttxWiFiDriver :=
  if d.mStagingNetwork.ssid.length == 0 || NetworkMatch d.mStagingNetwork ssid then
    if credentials.length ≤ kMaxWiFiKeyLength then
      if ssid.length ≤ kMaxWiFiSSIDLength then
        (Status.kSuccess, { d with mStagingNetwork := ⟨ssid, credentials⟩ })
      else (Status.kOutOfRange, d)
    else (Status.kOutOfRange, d)
  else (Status.kBoundsExceeded, d)

/-- NuttxWiFiDriver::WiFiNetworkIterator::Count: 0 if no network is staged,
else 1. -/
def WiFiNetworkIterator.Count (d : NuttxWiFiDriver) : Nat :=
  if d.mStagingNetwork.ssid.length == 0 then 0 else 1

/-- Injected results of the two KeyValueStoreMgr().Put calls made by
CommitConfiguration. -/
structure KvsEnv where
  putSsid : CHIP_ERROR
  putCredentials : CHIP_ERROR
deriving DecidableEq

/-- NuttxWiFiDriver::CommitConfiguration: persist the staging ssid, then the
staging credentials, returning early on a storage failure; on success the
saved network becomes the staging network. -/
def CommitConfiguration (env : KvsEnv) (d : NuttxWiFiDriver) :
    CHIP_ERROR × NuttxWiFiDriver :=
  if env.putSsid ≠ CHIP_ERROR.noError then (env.putSsid, d)
  else if env.putCredentials ≠ CHIP_ERROR.noError then (env.putCredentials, d)
  else (CHIP_ERROR.noError, { d with mSavedNetwork := d.mStagingNetwork })

/-- NuttxWiFiDriver::RevertConfiguration: the staging network becomes the
saved network; always CHIP_NO_ERROR. -/
def RevertConfiguration (d : NuttxWiFiDriver) : CHIP_ERROR × NuttxWiFiDriver :=
  (CHIP_ERROR.noError, { d with mStagingNetwork := d.mSavedNetwork })

end Chip

namespace Chip

/- Helper lemmas about the kernel semantics. -/

theorem SignalState.eq_of_pending {s t : SignalState} (h : s.pending = t.pending) :
    s = t := by
  cases s
  cases t
  simpa using h

theorem confirmPipeLoop_drain :
    ∀ (n : Nat) (s : SignalState), s.pending ≤ n → (confirmPipeLoop s).pending = 0 := by
  intro n
  induction n with
  | zero =>
    intro s hs
    have hz : s.pending = 0 := Nat.le_zero.mp hs
    unfold confirmPipeLoop
    simp [readSys, Backend.isEventFd, hz]
  | succ n ih =>
    intro s hs
    unfold confirmPipeLoop
    by_cases hz : s.pending = 0
    · simp [readSys, Backend.isEventFd, hz]
    · by_cases hm : min 128 s.pending = 128
      · simp only [readSys, Backend.isEventFd, hz, if_neg hz, Bool.false_eq_true,
          if_false, hm, dif_pos rfl]
        exact ih _ (by simp; omega)
      · simp only [readSys, Backend.isEventFd, hz, if_neg hz, Bool.false_eq_true,
          if_false]
        rw [dif_neg (by simpa using hm)]
        simp
        omega

theorem confirmPipeLoop_eq_zero (s : SignalState) : confirmPipeLoop s = ⟨0⟩ :=
  SignalState.eq_of_pending (confirmPipeLoop_drain s.pending s (Nat.le_refl _))

theorem notifyKernel_state_eq (b : Backend) (cap : Nat) (s : SignalState)
    (hs : s.pending ≤ effLimit b cap) :
    (notifyKernel b cap s).state = ⟨min (s.pending + 1) (effLimit b cap)⟩ := by
  apply SignalState.eq_of_pending
  by_cases hlt : s.pending < effLimit b cap
  · cases b <;>
      simp [notifyKernel, writeSys, hlt, NotifyRes.state] <;>
      omega
  · cases b <;>
      simp [notifyKernel, writeSys, hlt, Backend.isEventFd, Errno.isWouldBlock,
        NotifyRes.state] <;>
      omega

theorem notifyIterState_pending (b : Backend) (cap : Nat) :
    ∀ (n : Nat) (s : SignalState), s.pending ≤ effLimit b cap →
      (notifyIterState b cap n s).pending = min (s.pending + n) (effLimit b cap) := by
  intro n
  induction n with
  | zero =>
    intro s hs
    simp [notifyIterState]
    omega
  | succ n ih =>
    intro s hs
    show (notifyIterState b cap n (notifyKernel b cap s).state).pending = _
    rw [notifyKernel_state_eq b cap s hs]
    rw [ih ⟨min (s.pending + 1) (effLimit b cap)⟩ (by simp)]
    simp
    omega

theorem effLimit_pos (b : Backend) (cap : Nat) (hcap : 1 ≤ cap) :
    1 ≤ effLimit b cap := by
  cases b <;> simp [effLimit, Backend.isEventFd, eventfdMaxCounter, hcap]

/-- C1: for every backend, after a successful Open, N ≥ 1 Notify calls with no
intervening Confirm leave the wake channel readable; a single Confirm then
consumes all pending signal data, so a zero-timeout readiness check on the
drained channel reports not readable; and for the pipe/FIFO backends the
Confirm read loop leaves zero pending bytes from any finite pending count. -/
theorem wake_notify_then_confirm_not_readable (b : Backend) (cap N : Nat)
    (s : SignalState) (hcap : 1 ≤ cap) (hN : 1 ≤ N) :
    readable (notifyIterState b cap N openSignalState) = true ∧
    confirmKernel b (notifyIterState b cap N openSignalState) =
      ConfirmRes.done ⟨0⟩ ∧
    readable ⟨0⟩ = false ∧
    confirmPipeLoop s = ⟨0⟩ := by
  have hpend : (notifyIterState b cap N openSignalState).pending =
      min N (effLimit b cap) := by
    have h := notifyIterState_pending b cap N openSignalState
      (by simp [openSignalState])
    simpa [openSignalState] using h
  have hpos : 1 ≤ min N (effLimit b cap) :=
    le_min hN (effLimit_pos b cap hcap)
  refine ⟨?_, ?_, by simp [readable], confirmPipeLoop_eq_zero s⟩
  · simp [readable, hpend]
    omega
  · by_cases hb : b.isEventFd = true
    · have hne : (notifyIterState b cap N openSignalState).pending ≠ 0 := by
        rw [hpend]; omega
      simp [confirmKernel, hb, readSys, hne]
    · simp [confirmKernel, hb]
      exact confirmPipeLoop_eq_zero _

/-- C1 witness at the pipe backend, capacity 512, three notifies, and a
channel holding 1000 pending bytes for the drain conjunct. -/
theorem wake_notify_then_confirm_not_readable_witness :
    readable (notifyIterState Backend.pipe 512 3 openSignalState) = true ∧
    confirmKernel Backend.pipe (notifyIterState Backend.pipe 512 3 openSignalState) =
      ConfirmRes.done ⟨0⟩ ∧
    readable ⟨0⟩ = false ∧
    confirmPipeLoop ⟨1000⟩ = ⟨0⟩ :=
  wake_notify_then_confirm_not_readable Backend.pipe 512 3 ⟨1000⟩
    (by decide) (by decide)

/-- C2 counterexample: the eventfd is created with `eventfd(0, 0)`, so its
descriptor is blocking; a Confirm on the drained channel (counter 0) blocks
in the read instead of returning after observing a would-block error. -/
theorem eventfd_second_confirm_blocks_counterexample :
    confirmKernel Backend.eventfd ⟨0⟩ = ConfirmRes.blocked ⟨0⟩ ∧
    ConfirmRes.blocked (⟨0⟩ : SignalState) ≠ ConfirmRes.done ⟨0⟩ := by
  constructor
  · simp [confirmKernel, Backend.isEventFd, readSys]
  · decide

/-- C2 amended: for the eventfd backends, each Notify below the counter
maximum increments the counter by exactly 1 (three Notify calls from a fresh
handle yield 3); one Confirm performs a single read that fetches the counter
value and atomically resets it to 0; a second Confirm immediately after
blocks in the read (the descriptor is not non-blocking), leaving the counter
at 0. -/
theorem eventfd_counter_semantics (b : Backend) (cap : Nat) (s : SignalState)
    (v : Nat) (hb : b.isEventFd = true) (hlt : s.pending < eventfdMaxCounter)
    (hv : v ≠ 0) :
    notifyKernel b cap s = NotifyRes.ret CHIP_ERROR.noError ⟨s.pending + 1⟩ ∧
    notifyIterState b cap 3 openSignalState = ⟨3⟩ ∧
    readSys false 8 b ⟨v⟩ = (SysOut.ok v, ⟨0⟩) ∧
    confirmKernel b ⟨v⟩ = ConfirmRes.done ⟨0⟩ ∧
    confirmKernel b ⟨0⟩ = ConfirmRes.blocked ⟨0⟩ := by
  have heff : effLimit b cap = eventfdMaxCounter := by simp [effLimit, hb]
  refine ⟨?_, ?_, ?_, ?_, ?_⟩
  · simp [notifyKernel, writeSys, hb, heff, hlt]
  · apply SignalState.eq_of_pending
    have h := notifyIterState_pending b cap 3 openSignalState
      (by simp [openSignalState])
    rw [h]
    simp [openSignalState, heff, eventfdMaxCounter]
  · simp [readSys, hb, hv]
  · simp [confirmKernel, hb, readSys, hv]
  · simp [confirmKernel, hb, readSys]

/-- C2 amended witness at the eventfd backend with counter 0 and fetched
value 3. -/
theorem eventfd_counter_semantics_witness :
    notifyKernel Backend.eventfd 0 ⟨0⟩ = NotifyRes.ret CHIP_ERROR.noError ⟨1⟩ ∧
    notifyIterState Backend.eventfd 0 3 openSignalState = ⟨3⟩ ∧
    readSys false 8 Backend.eventfd ⟨3⟩ = (SysOut.ok 3, ⟨0⟩) ∧
    confirmKernel Backend.eventfd ⟨3⟩ = ConfirmRes.done ⟨0⟩ ∧
    confirmKernel Backend.eventfd ⟨0⟩ = ConfirmRes.blocked ⟨0⟩ :=
  have h := eventfd_counter_semantics Backend.eventfd 0 ⟨0⟩ 3
    (by decide) (by decide) (by decide)
  ⟨h.1, h.2.1, h.2.2.1, h.2.2.2.1, h.2.2.2.2⟩

end Chip

namespace Chip

/-- C3: for every backend, a Notify whose underlying write fails with a
would-block errno (EAGAIN or EWOULDBLOCK) returns CHIP_NO_ERROR and performs
no further system call beyond that single write. -/
theorem notify_swallows_would_block (useFifo : Bool) (hP : WakeHandleP)
    (hE : WakeHandleE) (env : NotifyEnv) (e : Errno)
    (hwb : e.isWouldBlock = true) (hw : env.write1 = WriteRet.fail e) :
    NotifyCtlP useFifo hP env =
      ⟨CHIP_ERROR.noError, hP, [SysAct.write hP.mWriteFD 1]⟩ ∧
    NotifyCtlE hE env = ⟨CHIP_ERROR.noError, hE, [SysAct.write hE.mReadFD 8]⟩ := by
  constructor
  · simp [NotifyCtlP, hw, hwb]
  · simp [NotifyCtlE, hw, hwb]

/-- C3 witness: a first write failing with EAGAIN, on the FIFO build of the
pipe family and on the eventfd family. -/
theorem notify_swallows_would_block_witness :
    NotifyCtlP true ⟨3, 4, 0⟩ ⟨WriteRet.fail Errno.EAGAIN, OpenRet.ok 9, WriteRet.ok⟩ =
      ⟨CHIP_ERROR.noError, ⟨3, 4, 0⟩, [SysAct.write 4 1]⟩ ∧
    NotifyCtlE ⟨5, 0⟩ ⟨WriteRet.fail Errno.EAGAIN, OpenRet.ok 9, WriteRet.ok⟩ =
      ⟨CHIP_ERROR.noError, ⟨5, 0⟩, [SysAct.write 5 8]⟩ :=
  notify_swallows_would_block true ⟨3, 4, 0⟩ ⟨5, 0⟩
    ⟨WriteRet.fail Errno.EAGAIN, OpenRet.ok 9, WriteRet.ok⟩ Errno.EAGAIN
    (by decide) rfl

/-- C4: in the FIFO build, a Notify whose first write fails with a
non-would-block errno opens a fresh writer on the well-known FIFO path and
retries the one-byte write exactly once: if the open fails its errno is
returned; if the retried write fails the fresh descriptor is closed and that
errno is returned; if the retried write succeeds the fresh descriptor is
closed and Notify returns CHIP_NO_ERROR. -/
theorem fifo_notify_reopen_retry_once (hP : WakeHandleP) (env : NotifyEnv)
    (e e2 e3 : Errno) (fd : Int) (hw : env.write1 = WriteRet.fail e)
    (hwb : e.isWouldBlock = false) :
    (env.openW = OpenRet.fail e2 →
      NotifyCtlP true hP env =
        ⟨CHIP_ERROR.posix e2, hP,
          [SysAct.write hP.mWriteFD 1, SysAct.openWriter]⟩) ∧
    (env.openW = OpenRet.ok fd → env.write2 = WriteRet.fail e3 →
      NotifyCtlP true hP env =
        ⟨CHIP_ERROR.posix e3, hP,
          [SysAct.write hP.mWriteFD 1, SysAct.openWriter, SysAct.write fd 1,
            SysAct.close fd]⟩) ∧
    (env.openW = OpenRet.ok fd → env.write2 = WriteRet.ok →
      NotifyCtlP true hP env =
        ⟨CHIP_ERROR.noError, hP,
          [SysAct.write hP.mWriteFD 1, SysAct.openWriter, SysAct.write fd 1,
            SysAct.close fd]⟩) := by
  refine ⟨?_, ?_, ?_⟩
  · intro ho
    simp [NotifyCtlP, hw, hwb, ho]
  · intro ho hw2
    simp [NotifyCtlP, hw, hwb, ho, hw2]
  · intro ho hw2
    simp [NotifyCtlP, hw, hwb, ho, hw2]

/-- C4 witness: first write fails with EPIPE, the reopen yields descriptor 9
and the retried write succeeds. -/
theorem fifo_notify_reopen_retry_once_witness :
    (NotifyEnv.mk (WriteRet.fail Errno.EPIPE) (OpenRet.ok 9) WriteRet.ok).openW =
      OpenRet.ok 9 ∧
    NotifyCtlP true ⟨3, 4, 0⟩
        ⟨WriteRet.fail Errno.EPIPE, OpenRet.ok 9, WriteRet.ok⟩ =
      ⟨CHIP_ERROR.noError, ⟨3, 4, 0⟩,
        [SysAct.write 4 1, SysAct.openWriter, SysAct.write 9 1,
          SysAct.close 9]⟩ :=
  ⟨rfl,
    (fifo_notify_reopen_retry_once ⟨3, 4, 0⟩
        ⟨WriteRet.fail Errno.EPIPE, OpenRet.ok 9, WriteRet.ok⟩ Errno.EPIPE
        Errno.EPIPE Errno.EPIPE 9 rfl (by decide)).2.2 rfl rfl⟩

/-- C5 counterexample: the eventfd descriptor is created blocking
(`eventfd(0, 0)`), so in the state reached from a fresh handle by
`eventfdMaxCounter` Notify calls (counter saturated at 2^64 - 2) the next
Notify blocks in its write instead of returning. -/
theorem notify_saturated_eventfd_blocks_counterexample :
    notifyIterState Backend.eventfd 1 eventfdMaxCounter openSignalState =
      ⟨eventfdMaxCounter⟩ ∧
    notifyKernel Backend.eventfd 1 ⟨eventfdMaxCounter⟩ =
      NotifyRes.blocked ⟨eventfdMaxCounter⟩ := by
  constructor
  · apply SignalState.eq_of_pending
    have h := notifyIterState_pending Backend.eventfd 1 eventfdMaxCounter
      openSignalState (by simp [openSignalState])
    rw [h]
    simp [openSignalState, effLimit, Backend.isEventFd]
  · simp [notifyKernel, writeSys, effLimit, Backend.isEventFd]

/-- C5 amended: Notify never loops — on every backend and every injected
system-call outcome it performs at most 4 system calls (this covers the FIFO
reopen-and-retry path) — and under the kernel semantics it returns without
blocking from every channel state, provided for the eventfd backends that
the counter is below its maximum 2^64 - 2 (at the maximum the blocking-mode
eventfd write blocks until a Confirm resets the counter). -/
theorem notify_bounded_and_nonblocking (useFifo : Bool) (hP : WakeHandleP)
    (hE : WakeHandleE) (env : NotifyEnv) (b : Backend) (cap : Nat)
    (s : SignalState)
    (hside : b.isEventFd = true → s.pending < eventfdMaxCounter) :
    (NotifyCtlP useFifo hP env).acts.length ≤ 4 ∧
    (NotifyCtlE hE env).acts.length ≤ 4 ∧
    ∃ e t, notifyKernel b cap s = NotifyRes.ret e t := by
  refine ⟨?_, ?_, ?_⟩
  · rcases env with ⟨w1, ow, w2⟩
    cases w1 with
    | ok => simp [NotifyCtlP]
    | fail e =>
      cases ow <;> cases w2 <;> by_cases hwb : e.isWouldBlock = true <;>
        simp [NotifyCtlP, hwb] <;> cases useFifo <;> simp
  · rcases env with ⟨w1, ow, w2⟩
    cases w1 with
    | ok => simp [NotifyCtlE]
    | fail e =>
      by_cases hwb : e.isWouldBlock = true <;> simp [NotifyCtlE, hwb]
  · by_cases hlt : s.pending < effLimit b cap
    · refine ⟨CHIP_ERROR.noError, ⟨s.pending + 1⟩, ?_⟩
      simp [notifyKernel, writeSys, hlt]
    · have hb : b.isEventFd = false := by
        cases hbe : b.isEventFd
        · rfl
        · have heff : effLimit b cap = eventfdMaxCounter := by simp [effLimit, hbe]
          have h1 := hside hbe
          omega
      refine ⟨CHIP_ERROR.noError, s, ?_⟩
      have hnb : (!b.isEventFd) = true := by simp [hb]
      simp [notifyKernel, writeSys, hlt, hnb, Errno.isWouldBlock]

/-- C5 amended witness: the FIFO retry path environment for the trace bound,
and the eventfd backend one notify below saturation for the non-blocking
conjunct. -/
theorem notify_bounded_and_nonblocking_witness :
    (NotifyCtlP true ⟨3, 4, 0⟩
        ⟨WriteRet.fail Errno.EPIPE, OpenRet.ok 9, WriteRet.ok⟩).acts.length ≤ 4 ∧
    (NotifyCtlE ⟨5, 0⟩
        ⟨WriteRet.fail Errno.EPIPE, OpenRet.ok 9, WriteRet.ok⟩).acts.length ≤ 4 ∧
    ∃ e t, notifyKernel Backend.eventfd 1 ⟨0⟩ = NotifyRes.ret e t :=
  notify_bounded_and_nonblocking true ⟨3, 4, 0⟩ ⟨5, 0⟩
    ⟨WriteRet.fail Errno.EPIPE, OpenRet.ok 9, WriteRet.ok⟩ Backend.eventfd 1 ⟨0⟩
    (by decide)

end Chip

namespace Chip

theorem closeP_acts_cons (hP : WakeHandleP) (env : CloseEnv) :
    ∃ rest, (CloseP hP env).acts = SysAct.stopWatch :: rest := by
  unfold CloseP
  split
  · exact ⟨_, rfl⟩
  · split
    · exact ⟨_, rfl⟩
    · exact ⟨_, rfl⟩

theorem closeE_acts_cons (hE : WakeHandleE) (env : CloseEnv) :
    ∃ rest, (CloseE hE env).acts = SysAct.stopWatch :: rest := by
  unfold CloseE
  split
  · exact ⟨_, rfl⟩
  · exact ⟨_, rfl⟩

theorem stopWatch_before_close_of_cons (l : List SysAct)
    (hl : ∃ rest, l = SysAct.stopWatch :: rest) (i : Nat) (fd : Int)
    (hi : l[i]? = some (SysAct.close fd)) :
    ∃ j, j < i ∧ l[j]? = some SysAct.stopWatch := by
  obtain ⟨rest, hrest⟩ := hl
  subst hrest
  cases i with
  | zero => simp at hi
  | succ n => exact ⟨0, Nat.succ_pos n, by simp⟩

/-- C6: for every backend, a failed `::close` of any descriptor during Close
makes the process die (VerifyOrDie) before Close completes, and when every
close succeeds Close completes with all stored descriptor fields set
to -1. -/
theorem close_dies_on_failure_else_resets (hP : WakeHandleP) (hE : WakeHandleE)
    (env : CloseEnv) :
    (env.closeRead ≠ 0 →
      CloseP hP env = CloseRes.died [SysAct.stopWatch, SysAct.close hP.mReadFD] ∧
      CloseE hE env = CloseRes.died [SysAct.stopWatch, SysAct.close hE.mReadFD]) ∧
    (env.closeRead = 0 → env.closeWrite ≠ 0 →
      CloseP hP env = CloseRes.died
        [SysAct.stopWatch, SysAct.close hP.mReadFD, SysAct.close hP.mWriteFD]) ∧
    (env.closeRead = 0 → env.closeWrite = 0 →
      CloseP hP env = CloseRes.done ⟨-1, -1, hP.mReadWatch⟩
        [SysAct.stopWatch, SysAct.close hP.mReadFD, SysAct.close hP.mWriteFD] ∧
      CloseE hE env = CloseRes.done ⟨-1, hE.mReadWatch⟩
        [SysAct.stopWatch, SysAct.close hE.mReadFD]) := by
  refine ⟨?_, ?_, ?_⟩
  · intro hr
    constructor
    · simp [CloseP, hr]
    · simp [CloseE, hr]
  · intro hr hw
    simp [CloseP, hr, hw]
  · intro hr hw
    constructor
    · simp [CloseP, hr, hw]
    · simp [CloseE, hr]

/-- C6 witness: both close calls succeed on descriptors 3, 4 and 5; and the
read-side close fails with return -1. -/
theorem close_dies_on_failure_else_resets_witness :
    (CloseP ⟨3, 4, 0⟩ ⟨0, 0⟩ = CloseRes.done ⟨-1, -1, 0⟩
        [SysAct.stopWatch, SysAct.close 3, SysAct.close 4] ∧
      CloseE ⟨5, 0⟩ ⟨0, 0⟩ = CloseRes.done ⟨-1, 0⟩
        [SysAct.stopWatch, SysAct.close 5]) ∧
    CloseP ⟨3, 4, 0⟩ ⟨-1, 0⟩ = CloseRes.died [SysAct.stopWatch, SysAct.close 3] :=
  ⟨(close_dies_on_failure_else_resets ⟨3, 4, 0⟩ ⟨5, 0⟩ ⟨0, 0⟩).2.2 rfl rfl,
    ((close_dies_on_failure_else_resets ⟨3, 4, 0⟩ ⟨5, 0⟩ ⟨-1, 0⟩).1 (by decide)).1⟩

/-- C7: for every backend and every Close execution, the StopWatchingSocket
call occurs in the trace strictly before every descriptor close: any close
at position i has the stop-watch call at an earlier position. -/
theorem close_stops_watch_before_closing (hP : WakeHandleP) (hE : WakeHandleE)
    (env : CloseEnv) (i : Nat) (fd : Int) :
    ((CloseP hP env).acts[i]? = some (SysAct.close fd) →
      ∃ j, j < i ∧ (CloseP hP env).acts[j]? = some SysAct.stopWatch) ∧
    ((CloseE hE env).acts[i]? = some (SysAct.close fd) →
      ∃ j, j < i ∧ (CloseE hE env).acts[j]? = some SysAct.stopWatch) := by
  constructor
  · intro hi
    exact stopWatch_before_close_of_cons _ (closeP_acts_cons hP env) i fd hi
  · intro hi
    exact stopWatch_before_close_of_cons _ (closeE_acts_cons hE env) i fd hi

/-- C7 witness: in the all-success Close trace of the pipe handle ⟨3, 4, 0⟩,
the close of descriptor 3 is at position 1 and the stop-watch call precedes
it. -/
theorem close_stops_watch_before_closing_witness :
    (CloseP ⟨3, 4, 0⟩ ⟨0, 0⟩).acts[1]? = some (SysAct.close 3) ∧
    ∃ j, j < 1 ∧ (CloseP ⟨3, 4, 0⟩ ⟨0, 0⟩).acts[j]? = some SysAct.stopWatch :=
  ⟨by decide,
    (close_stops_watch_before_closing ⟨3, 4, 0⟩ ⟨5, 0⟩ ⟨0, 0⟩ 1 3).1 (by decide)⟩

/-- C8: for every backend, Notify and Confirm leave every field of the
WakeEvent handle unchanged on all paths, error paths included — the models
return the handle to exhibit this — and Confirm propagates nothing to its
caller: its result carries only the unchanged handle and the reads
performed, mirroring the void return type. -/
theorem notify_confirm_preserve_handle (useFifo : Bool) (hP : WakeHandleP)
    (hE : WakeHandleE) (env : NotifyEnv) (envCP : List ReadRet)
    (envCE : ReadRet) :
    (NotifyCtlP useFifo hP env).handle = hP ∧
    (NotifyCtlE hE env).handle = hE ∧
    ConfirmCtlP hP envCP = (hP, confirmReads hP.mReadFD envCP) ∧
    ConfirmCtlE hE envCE = (hE, [SysAct.read hE.mReadFD]) := by
  refine ⟨?_, ?_, rfl, rfl⟩
  · rcases env with ⟨w1, ow, w2⟩
    cases w1 with
    | ok => simp [NotifyCtlP]
    | fail e =>
      cases ow <;> cases w2 <;> by_cases hwb : e.isWouldBlock = true <;>
        simp [NotifyCtlP, hwb] <;> cases useFifo <;> simp
  · rcases env with ⟨w1, ow, w2⟩
    cases w1 with
    | ok => simp [NotifyCtlE]
    | fail e =>
      by_cases hwb : e.isWouldBlock = true <;> simp [NotifyCtlE, hwb]

/-- C9: the driver stores at most one network: with a network staged, an
AddOrUpdateNetwork whose ssid does not match the staged one returns
kBoundsExceeded and leaves the driver unchanged, and the network iterator
count never exceeds 1 in any driver state. -/
theorem wifi_at_most_one_network (d d2 : NuttxWiFiDriver)
    (ssid credentials : List Nat) (hstaged : d.mStagingNetwork.ssid.length ≠ 0)
    (hmis : NetworkMatch d.mStagingNetwork ssid = false) :
    AddOrUpdateNetwork d ssid credentials = (Status.kBoundsExceeded, d) ∧
    WiFiNetworkIterator.Count d2 ≤ 1 := by
  constructor
  · simp [AddOrUpdateNetwork, hstaged, hmis]
  · unfold WiFiNetworkIterator.Count
    split
    · exact Nat.zero_le 1
    · exact Nat.le_refl 1

/-- C9 witness: a staged network with ssid [1] and an update with ssid [2]. -/
theorem wifi_at_most_one_network_witness :
    (NuttxWiFiDriver.mk ⟨[], []⟩ ⟨[1], [7]⟩).mStagingNetwork.ssid.length ≠ 0 ∧
    NetworkMatch (NuttxWiFiDriver.mk ⟨[], []⟩ ⟨[1], [7]⟩).mStagingNetwork [2] =
      false ∧
    AddOrUpdateNetwork (NuttxWiFiDriver.mk ⟨[], []⟩ ⟨[1], [7]⟩) [2] [9] =
      (Status.kBoundsExceeded, NuttxWiFiDriver.mk ⟨[], []⟩ ⟨[1], [7]⟩) ∧
    WiFiNetworkIterator.Count (NuttxWiFiDriver.mk ⟨[], []⟩ ⟨[1], [7]⟩) ≤ 1 :=
  have h := wifi_at_most_one_network (NuttxWiFiDriver.mk ⟨[], []⟩ ⟨[1], [7]⟩)
    (NuttxWiFiDriver.mk ⟨[], []⟩ ⟨[1], [7]⟩) [2] [9] (by decide) (by decide)
  ⟨by decide, by decide, h.1, h.2⟩

/-- C10: after a CommitConfiguration that returns CHIP_NO_ERROR the saved
network equals the staging network, so RevertConfiguration right after a
successful commit leaves the driver state unchanged; and RevertConfiguration
is idempotent in every driver state. -/
theorem wifi_commit_revert_identity (env : KvsEnv) (d d2 : NuttxWiFiDriver)
    (hok : (CommitConfiguration env d).1 = CHIP_ERROR.noError) :
    (RevertConfiguration (CommitConfiguration env d).2).2 =
      (CommitConfiguration env d).2 ∧
    (RevertConfiguration (RevertConfiguration d2).2).2 =
      (RevertConfiguration d2).2 := by
  constructor
  · by_cases h1 : env.putSsid = CHIP_ERROR.noError
    · by_cases h2 : env.putCredentials = CHIP_ERROR.noError
      · simp [CommitConfiguration, h1, h2, RevertConfiguration]
      · exact absurd (by simpa [CommitConfiguration, h1, h2] using hok) h2
    · exact absurd (by simpa [CommitConfiguration, h1] using hok) h1
  · simp [RevertConfiguration]

/-- C10 witness: both storage puts succeed on a driver whose staging network
differs from the saved one. -/
theorem wifi_commit_revert_identity_witness :
    (CommitConfiguration ⟨CHIP_ERROR.noError, CHIP_ERROR.noError⟩
        (NuttxWiFiDriver.mk ⟨[], []⟩ ⟨[1], [7]⟩)).1 = CHIP_ERROR.noError ∧
    (RevertConfiguration (CommitConfiguration
        ⟨CHIP_ERROR.noError, CHIP_ERROR.noError⟩
        (NuttxWiFiDriver.mk ⟨[], []⟩ ⟨[1], [7]⟩)).2).2 =
      (CommitConfiguration ⟨CHIP_ERROR.noError, CHIP_ERROR.noError⟩
        (NuttxWiFiDriver.mk ⟨[], []⟩ ⟨[1], [7]⟩)).2 ∧
    (RevertConfiguration (RevertConfiguration
        (NuttxWiFiDriver.mk ⟨[], []⟩ ⟨[1], [7]⟩)).2).2 =
      (RevertConfiguration (NuttxWiFiDriver.mk ⟨[], []⟩ ⟨[1], [7]⟩)).2 :=
  have h := wifi_commit_revert_identity
    ⟨CHIP_ERROR.noError, CHIP_ERROR.noError⟩
    (NuttxWiFiDriver.mk ⟨[], []⟩ ⟨[1], [7]⟩)
    (NuttxWiFiDriver.mk ⟨[], []⟩ ⟨[1], [7]⟩) (by decide)
  ⟨by decide, h.1, h.2⟩

end Chip
